import Mathlib

/-!
Verification development for the `musicalbeeps` `Player` class
(`musicalbeeps/beepsplayer.py`).

Python strings are modelled as `List Char`, exact float arithmetic as `ℚ`,
and the irrational semitone factor `2^(1/12)` symbolically: the resolver
returns a `Freq` record `base * (2^(1/12))^semis`, interpreted into `ℝ` by
`Freq.toReal`.  Python exceptions are modelled as `Except` errors.
-/

namespace MusicalBeeps

/-- The four per-token diagnostic categories printed to stderr by the
resolver, each carrying the offending substring
(`note[:1]`, the octave text, the symbol text, or the whole token). -/
inductive NoteError where
  | letter (s : List Char)
  | octave (s : List Char)
  | symbol (s : List Char)
  | shape (s : List Char)
  deriving DecidableEq, Repr

/-- `Player.note_frequencies`: frequencies for the lowest octave. -/
def noteFrequencies : Char → Option ℚ
  | 'A' => some 27.50000
  | 'B' => some 30.86771
  | 'C' => some 16.35160
  | 'D' => some 18.35405
  | 'E' => some 20.60172
  | 'F' => some 21.82676
  | 'G' => some 24.49971
  | _ => none

/-- Value of a list of decimal digit characters. -/
def digitsVal (ds : List Char) : ℕ :=
  ds.foldl (fun a c => 10 * a + (c.toNat - 48)) 0

/-- Python `int(text)` on an optional sign followed by decimal digits
(the only shapes reachable here: single characters and the default "4"). -/
def pyInt (l : List Char) : Option ℤ :=
  match l with
  | '+' :: ds => if ds ≠ [] ∧ ds.all Char.isDigit then some (digitsVal ds) else none
  | '-' :: ds => if ds ≠ [] ∧ ds.all Char.isDigit then some (-(digitsVal ds : ℤ)) else none
  | ds => if ds ≠ [] ∧ ds.all Char.isDigit then some (digitsVal ds) else none

/-- The resolver's symbolic frequency: the float `self.freq` is
`base * (2^(1/12))^semis` with `base : ℚ` and `semis ∈ {-1, 0, 1}`. -/
structure Freq where
  base : ℚ
  semis : ℤ
  deriving DecidableEq, Repr

/-- `Player.__set_base_frequency`: `letter = note[:1].upper()`, then the
table lookup; a missing key prints `invalid note` and clears the flag. -/
def setBaseFrequency (note : List Char) : Except NoteError ℚ :=
  match (note.take 1).map Char.toUpper with
  | [c] =>
    match noteFrequencies c with
    | some f => Except.ok f
    | none => Except.error (NoteError.letter (note.take 1))
  | _ => Except.error (NoteError.letter (note.take 1))

/-- `Player.__set_octave`: `int(octave)` must land in `0..8`, then
`freq *= 2**octaveValue` (the exponent is non-negative after the check). -/
def setOctave (freq : ℚ) (octave : List Char) : Except NoteError ℚ :=
  match pyInt octave with
  | some v =>
    if v < 0 ∨ 8 < v then Except.error (NoteError.octave octave)
    else Except.ok (freq * 2 ^ v.toNat)
  | none => Except.error (NoteError.octave octave)

/-- `Player.__set_semitone`: `#` multiplies by `2**(1/12)`, `b` divides by
it, anything else prints `invalid symbol` and clears the flag. -/
def setSemitone (f : Freq) (symbol : List Char) : Except NoteError Freq :=
  if symbol = ['#'] then Except.ok ⟨f.base, f.semis + 1⟩
  else if symbol = ['b'] then Except.ok ⟨f.base, f.semis - 1⟩
  else Except.error (NoteError.symbol symbol)

/-- `Player.__calc_frequency`, entered with `_valid_note = True`:
`__set_base_frequency` always runs first; each later stage returns
immediately when the flag is already cleared, which is exactly `Except`
chaining; a token of unexpected length is reported as an invalid-note
shape failure only when the letter stage succeeded. -/
def calcFrequency (note : List Char) : Except NoteError Freq :=
  match setBaseFrequency note with
  | Except.error e => Except.error e
  | Except.ok base =>
    if note.length = 1 then
      (setOctave base ['4']).map (fun q => (⟨q, 0⟩ : Freq))
    else if note.length = 2 then
      if (note.drop 1).take 1 = ['#'] ∨ (note.drop 1).take 1 = ['b'] then
        match setOctave base ['4'] with
        | Except.error e => Except.error e
        | Except.ok q => setSemitone ⟨q, 0⟩ ((note.drop 1).take 1)
      else
        (setOctave base ((note.drop 1).take 1)).map (fun q => (⟨q, 0⟩ : Freq))
    else if note.length = 3 then
      match setOctave base ((note.drop 1).take 1) with
      | Except.error e => Except.error e
      | Except.ok q => setSemitone ⟨q, 0⟩ ((note.drop 2).take 1)
    else
      Except.error (NoteError.shape note)

/-- The irrational semitone factor `2**(1.0/12.0)`. -/
noncomputable def semitoneRatio : ℝ := (2 : ℝ) ^ ((1 : ℝ) / 12)

/-- Interpretation of the symbolic resolver output as the real frequency
held in the float `self.freq`. -/
noncomputable def Freq.toReal (f : Freq) : ℝ :=
  (f.base : ℝ) * semitoneRatio ^ f.semis

theorem semitoneRatio_pos : 0 < semitoneRatio :=
  Real.rpow_pos_of_pos (by norm_num) _

theorem toReal_semis_zero (q : ℚ) : Freq.toReal ⟨q, 0⟩ = (q : ℝ) := by
  simp [Freq.toReal]

theorem toReal_semis_one (q : ℚ) :
    Freq.toReal ⟨q, 1⟩ = (q : ℝ) * semitoneRatio := by
  simp [Freq.toReal]

theorem toReal_semis_negOne (q : ℚ) :
    Freq.toReal ⟨q, -1⟩ = (q : ℝ) / semitoneRatio := by
  simp [Freq.toReal, zpow_neg, div_eq_mul_inv]

theorem calcFrequency_A4 : calcFrequency ['A', '4'] = Except.ok ⟨440, 0⟩ := by
  simp +decide [calcFrequency, setBaseFrequency, setOctave, setSemitone, pyInt,
    digitsVal, noteFrequencies, Except.map]
  norm_num

theorem calcFrequency_C0 : calcFrequency ['C', '0'] = Except.ok ⟨16.3516, 0⟩ := by
  simp +decide [calcFrequency, setBaseFrequency, setOctave, setSemitone, pyInt,
    digitsVal, noteFrequencies, Except.map]
  norm_num

/-- Claim C1: for every valid token the resolved frequency is
`table[letter] * 2^octave`, multiplied by `2^(1/12)` for a sharp and
divided by it for a flat; `resolve "A4"` gives 440 Hz, `resolve "C0"`
gives 16.3516 Hz, and for every valid letter/octave pair the sharp
variant's frequency is the plain variant's times `2^(1/12)` while the
flat variant divides by the same factor. -/
theorem C1_resolver_frequency :
    ((calcFrequency ['A', '4']).map Freq.toReal = Except.ok 440) ∧
    ((calcFrequency ['C', '0']).map Freq.toReal = Except.ok 16.3516) ∧
    (∀ l b, noteFrequencies l.toUpper = some b →
      (calcFrequency [l] = Except.ok ⟨b * 2 ^ 4, 0⟩ ∧
       calcFrequency [l, '#'] = Except.ok ⟨b * 2 ^ 4, 1⟩ ∧
       calcFrequency [l, 'b'] = Except.ok ⟨b * 2 ^ 4, -1⟩) ∧
      (∀ o v, pyInt [o] = some v → 0 ≤ v → v ≤ 8 → o ≠ '#' → o ≠ 'b' →
        calcFrequency [l, o] = Except.ok ⟨b * 2 ^ v.toNat, 0⟩ ∧
        calcFrequency [l, o, '#'] = Except.ok ⟨b * 2 ^ v.toNat, 1⟩ ∧
        calcFrequency [l, o, 'b'] = Except.ok ⟨b * 2 ^ v.toNat, -1⟩)) ∧
    (∀ q : ℚ, Freq.toReal ⟨q, 0⟩ = (q : ℝ) ∧
      Freq.toReal ⟨q, 1⟩ = Freq.toReal ⟨q, 0⟩ * semitoneRatio ∧
      Freq.toReal ⟨q, -1⟩ = Freq.toReal ⟨q, 0⟩ / semitoneRatio) := by
  refine ⟨?_, ?_, ?_, ?_⟩
  · rw [calcFrequency_A4]
    simp [Except.map, toReal_semis_zero]
  · rw [calcFrequency_C0]
    simp [Except.map, toReal_semis_zero]
  · intro l b hl
    have hnum : ¬((4 : ℤ) < 0 ∨ 8 < (4 : ℤ)) := by decide
    constructor
    · refine ⟨?_, ?_, ?_⟩ <;>
        simp +decide [calcFrequency, setBaseFrequency, setOctave, setSemitone,
          pyInt, digitsVal, hl, hnum, Except.map]
    · intro o v hov h0 h8 hsharp hflat
      have hrange : ¬(v < 0 ∨ 8 < v) := by omega
      refine ⟨?_, ?_, ?_⟩ <;>
        simp +decide [calcFrequency, setBaseFrequency, setOctave, setSemitone,
          hl, hov, hrange, hsharp, hflat, Except.map]
  · intro q
    exact ⟨toReal_semis_zero q, by rw [toReal_semis_one, toReal_semis_zero],
      by rw [toReal_semis_negOne, toReal_semis_zero]⟩

/-- Concrete instantiation of `C1_resolver_frequency` at letter `A`,
octave `3`. -/
theorem C1_resolver_frequency_witness :
    noteFrequencies 'A'.toUpper = some 27.50000 ∧ pyInt ['3'] = some 3 ∧
    calcFrequency ['A', '3'] = Except.ok ⟨27.50000 * 2 ^ (3 : ℤ).toNat, 0⟩ ∧
    calcFrequency ['A', '3', '#'] =
      Except.ok ⟨27.50000 * 2 ^ (3 : ℤ).toNat, 1⟩ ∧
    calcFrequency ['A', '3', 'b'] =
      Except.ok ⟨27.50000 * 2 ^ (3 : ℤ).toNat, -1⟩ := by
  have h := (C1_resolver_frequency.2.2.1 'A' 27.50000 rfl).2 '3' 3 rfl
    (by decide) (by decide) (by decide) (by decide)
  exact ⟨rfl, rfl, h.1, h.2.1, h.2.2⟩

/-- Python exceptions that can escape the synthesis and sequencing code:
`np.linspace` with a negative sample count, `np.max` over a zero-size
array, `np.concatenate` over an empty list, the `TypeError` raised by
`play_tune` on a bad argument type, and the `OverflowError`/`ValueError`
raised by `int(duration * rate)` when the parsed duration is an
infinity or a NaN. -/
inductive PyError where
  | negativeLinspace
  | maxOfEmpty
  | concatEmpty
  | typeError
  | intOfInf
  | intOfNan
  deriving DecidableEq, Repr

/-- Python `int(x)` applied to a float value: truncation toward zero. -/
def pyTrunc (q : ℚ) : ℤ := if q < 0 then -⌊-q⌋ else ⌊q⌋

/-- `np.linspace(-10, 2, num=5)`: the default detune multipliers. -/
def waveVariationMultipliers : List ℚ := [-10, -7, -4, -1, 2]

/-- `self._fade_in = np.arange(0.0, 1.0, 1 / self.fade)` with
`self.fade = 800`: the 800 values `k/800`. -/
def fadeIn : List ℚ := (List.range 800).map fun k : ℕ => (k : ℚ) / 800

/-- `self._fade_out = np.arange(1.0, 0.0, -1 / self.fade)`: the 800
values `1 - k/800`. -/
def fadeOut : List ℚ := (List.range 800).map fun k : ℕ => 1 - (k : ℚ) / 800

/-- `np.max(np.abs(audio))` for a nonempty buffer (all mapped values are
non-negative, so folding `max` from `0` is the true maximum). -/
def maxAbs (l : List ℚ) : ℚ := (l.map (fun x => |x|)).foldr max 0

/-- numpy `astype(np.int16)`: truncate toward zero and wrap modulo
`2^16` into `[-32768, 32767]`. -/
def toInt16 (q : ℚ) : ℤ := Int.bmod (pyTrunc q) 65536

/-- The fade-envelope step of `generate_note_waveform`:
`if len(audio) > self.fade: audio[:800] *= fade_in; audio[-800:] *= fade_out`. -/
def fadeStep (audio : List ℚ) : List ℚ :=
  if 800 < audio.length then
    let a := List.zipWith (· * ·) (audio.take 800) fadeIn ++ audio.drop 800
    a.take (a.length - 800) ++
      List.zipWith (· * ·) (a.drop (a.length - 800)) fadeOut
  else audio

/-- `Player.generate_note_waveform` with the sine primitive abstracted:
`s q k` stands for `sin(2π · q · (2^(1/12))^k)`, so the float
`sin(2 * np.pi * self.freq * t * i)` is `s (base * t * i) semis` for the
resolved symbolic frequency.  `np.mean(waves, axis=0)` averages the
initial `np.zeros` row together with one detuned sine row per multiplier,
hence the division by `mult.length + 1`.  `np.max` over the empty buffer
of a degenerate duration raises, modelled by `PyError.maxOfEmpty`. -/
def generateNoteWaveform (s : ℚ → ℤ → ℚ) (mult : List ℚ) (volume : ℚ)
    (f : Freq) (duration : ℚ) : Except PyError (List ℤ) :=
  let n : ℤ := pyTrunc (duration * 44100)
  if n < 0 then Except.error PyError.negativeLinspace
  else
    let t : List ℚ :=
      (List.range n.toNat).map fun j : ℕ => duration * (j : ℚ) / (n.toNat : ℚ)
    let audio : List ℚ := t.map fun tv =>
      (0 + (mult.map fun m => s (f.base * tv * m) f.semis).sum) / (mult.length + 1)
    if audio.isEmpty then Except.error PyError.maxOfEmpty
    else
      let peak := maxAbs audio
      let scaled := audio.map fun x => x * (32767 / peak) * volume
      Except.ok ((fadeStep scaled).map toInt16)

/-- The ASCII whitespace stripped by Python `str.strip()` and ignored
around the text accepted by `float()`. -/
def pyIsSpace (c : Char) : Bool :=
  c == ' ' || c == '\t' || c == '\n' || c == '\r' || c == '\x0b' || c == '\x0c'

/-- Python `str.strip()` on ASCII text: drop whitespace at both ends. -/
def pyStrip (l : List Char) : List Char :=
  ((l.dropWhile pyIsSpace).reverse.dropWhile pyIsSpace).reverse

/-- Python `line.split(":")`: split on every colon, keeping empty parts. -/
def pySplitColon : List Char → List (List Char)
  | [] => [[]]
  | c :: rest =>
    if c = ':' then [] :: pySplitColon rest
    else
      match pySplitColon rest with
      | h :: tl => (c :: h) :: tl
      | [] => [[c]]

/-- The value of a Python float parsed from text: a finite value
(held exactly as a rational; float rounding and literal overflow to
infinity are outside this exact-arithmetic model), a signed infinity
(`"inf"`/`"infinity"`), or a NaN (`"nan"`, sign ignored). -/
inductive PyFloatVal where
  | finite (q : ℚ)
  | infinite (neg : Bool)
  | nanVal
  deriving DecidableEq, Repr

/-- Continue a Python `digitpart` (`digit (["_"] digit)*`): consume
digits, allowing a single underscore strictly between digits; returns
the accumulated value, the digit count, and the unconsumed rest. -/
def parseDigitpartAux : ℕ → ℕ → List Char → ℕ × ℕ × List Char
  | acc, cnt, [] => (acc, cnt, [])
  | acc, cnt, c :: rest =>
    if c.isDigit then parseDigitpartAux (10 * acc + (c.toNat - 48)) (cnt + 1) rest
    else if c = '_' then
      match rest with
      | d :: rest2 =>
        if d.isDigit then
          parseDigitpartAux (10 * acc + (d.toNat - 48)) (cnt + 1) rest2
        else (acc, cnt, c :: rest)
      | [] => (acc, cnt, c :: rest)
    else (acc, cnt, c :: rest)

/-- A Python `digitpart`, which must start with a digit. -/
def parseDigitpart (l : List Char) : Option (ℕ × ℕ × List Char) :=
  match l with
  | c :: rest =>
    if c.isDigit then some (parseDigitpartAux (c.toNat - 48) 1 rest) else none
  | [] => none

/-- An optional `digitpart`: absence leaves zero digits and the input. -/
def parseDigitpartOpt (l : List Char) : ℕ × ℕ × List Char :=
  match parseDigitpart l with
  | some r => r
  | none => (0, 0, l)

/-- An unsigned Python float literal
`([digitpart] ["." [digitpart]]) [("e"|"E") [sign] digitpart]` with at
least one mantissa digit; returns the exact value and the unconsumed
rest. -/
def parseNumber (l : List Char) : Option (ℚ × List Char) :=
  let ip := parseDigitpartOpt l
  let dotted : Bool × List Char :=
    match ip.2.2 with
    | '.' :: rest => (true, rest)
    | _ => (false, ip.2.2)
  let fp := if dotted.1 then parseDigitpartOpt dotted.2 else (0, 0, dotted.2)
  if ip.2.1 + fp.2.1 = 0 then none
  else
    let mant : ℚ := (ip.1 : ℚ) + (fp.1 : ℚ) / 10 ^ fp.2.1
    match fp.2.2 with
    | 'e' :: rest | 'E' :: rest =>
      let signed : Bool × List Char :=
        match rest with
        | '+' :: rr => (false, rr)
        | '-' :: rr => (true, rr)
        | rr => (false, rr)
      match parseDigitpart signed.2 with
      | some ep =>
        some (mant * 10 ^ (if signed.1 then -(ep.1 : ℤ) else (ep.1 : ℤ)), ep.2.2)
      | none => none
    | rest => some (mant, rest)

/-- Python `float(text)` on ASCII text: strip surrounding whitespace,
take an optional sign, then either the case-insensitive words
`inf`/`infinity`/`nan` or a decimal literal (underscore digit
separators and exponent notation included) consuming the whole rest.
Unicode digits and spaces, which CPython also maps to ASCII, are
outside this ASCII model. -/
def pyFloat (l : List Char) : Option PyFloatVal :=
  let t := pyStrip l
  let signed : Bool × List Char :=
    match t with
    | '+' :: rest => (false, rest)
    | '-' :: rest => (true, rest)
    | rest => (false, rest)
  let rl := signed.2.map Char.toLower
  if rl = ['i', 'n', 'f'] ∨ rl = ['i', 'n', 'f', 'i', 'n', 'i', 't', 'y'] then
    some (PyFloatVal.infinite signed.1)
  else if rl = ['n', 'a', 'n'] then some PyFloatVal.nanVal
  else
    match parseNumber signed.2 with
    | some (q, []) => some (PyFloatVal.finite (if signed.1 then -q else q))
    | _ => none

/-- One line of `generate_tune_waveform`'s loop, after `strip`:
`note, duration = line.split(":")` raises unless the split produced
exactly two parts, in which case the whole line is the token with
duration `0.5`; then `float(duration)` falls back to `0.5` on failure. -/
def parseLine (l : List Char) : List Char × PyFloatVal :=
  match pySplitColon l with
  | [n, d] => (n, (pyFloat d).getD (PyFloatVal.finite (1 / 2)))
  | _ => (l, PyFloatVal.finite (1 / 2))

/-- The loop of `generate_tune_waveform`.  The `Bool` argument is the
instance field `self._valid_note`, which the loop never resets to
`True`: once a token has failed, `__set_octave`/`__set_semitone` return
immediately and the `if self._valid_note` guard skips every later note,
so the flag stays `False` for the rest of the tune.  A parsed duration
of infinity or NaN makes `int(duration * self.rate)` raise inside
`generate_note_waveform` (`OverflowError`/`ValueError`), modelled by
the non-finite branches here since `generateNoteWaveform` itself is
stated over finite (rational) durations. -/
def tuneBuffersAux (s : ℚ → ℤ → ℚ) (mult : List ℚ) (volume : ℚ) :
    Bool → List (List Char) → Except PyError (List (List ℤ))
  | _, [] => Except.ok []
  | valid, line :: rest =>
    let l := pyStrip line
    if l.length = 0 then tuneBuffersAux s mult volume valid rest
    else
      if valid then
        match calcFrequency (parseLine l).1 with
        | Except.ok f =>
          match (parseLine l).2 with
          | PyFloatVal.finite d =>
            match generateNoteWaveform s mult volume f d with
            | Except.error e => Except.error e
            | Except.ok w =>
              match tuneBuffersAux s mult volume true rest with
              | Except.error e => Except.error e
              | Except.ok ws => Except.ok (w :: ws)
          | PyFloatVal.infinite _ => Except.error PyError.intOfInf
          | PyFloatVal.nanVal => Except.error PyError.intOfNan
        | Except.error _ => tuneBuffersAux s mult volume false rest
      else tuneBuffersAux s mult volume false rest

/-- `Player.generate_tune_waveform` on a fresh `Player`
(`_valid_note = True` after construction): collect the per-note buffers,
then `np.concatenate(notes_waves)`, which raises on an empty list. -/
def generateTuneWaveform (s : ℚ → ℤ → ℚ) (mult : List ℚ) (volume : ℚ)
    (lines : List (List Char)) : Except PyError (List ℤ) :=
  match tuneBuffersAux s mult volume true lines with
  | Except.error e => Except.error e
  | Except.ok [] => Except.error PyError.concatEmpty
  | Except.ok ws => Except.ok ws.flatten

/-- The observable outcome of one `play_note` call: a `"pause"` token
waits out the previous sound, reports the pause and sleeps for the
duration without producing or dispatching any buffer; a valid note
synthesizes and dispatches its buffer; an invalid note is skipped. -/
inductive PlayAction where
  | pausedFor (duration : ℚ)
  | played (buffer : List ℤ) (duration : ℚ)
  | skippedInvalid
  deriving Repr

/-- `Player.play_note`: resets `_valid_note = True`, special-cases the
literal token `"pause"` before any resolution, otherwise resolves and,
when valid, synthesizes and dispatches. -/
def playNote (s : ℚ → ℤ → ℚ) (mult : List ℚ) (volume : ℚ)
    (note : List Char) (duration : ℚ) : Except PyError PlayAction :=
  if note = ['p', 'a', 'u', 's', 'e'] then
    Except.ok (PlayAction.pausedFor duration)
  else
    match calcFrequency note with
    | Except.ok f =>
      match generateNoteWaveform s mult volume f duration with
      | Except.error e => Except.error e
      | Except.ok w => Except.ok (PlayAction.played w duration)
    | Except.error _ => Except.ok PlayAction.skippedInvalid

/-- The configuration fixed by `Player.__init__`. -/
structure PlayerConfig where
  volume : ℚ
  muteOutput : Bool
  deriving DecidableEq, Repr

/-- The volume validation in `Player.__init__`:
`if volume < 0 or volume > 1: raise ValueError(...)`. -/
def playerInit (volume : ℚ) (muteOutput : Bool) : Except String PlayerConfig :=
  if volume < 0 ∨ 1 < volume then
    Except.error "Volume must be a float between 0 and 1"
  else Except.ok ⟨volume, muteOutput⟩

/-- The runtime type of the `tune` argument of `play_tune`:
a string (a file path of tune lines), a list of tune lines, or any
other value. -/
inductive TuneArg where
  | strArg (path : List Char)
  | listArg (lines : List (List Char))
  | otherArg

/-- `Player.play_tune`: dispatch on `isinstance`; a string is read as
lines (file access abstracted by `readLines`), a list is used directly,
anything else raises `TypeError("tune must be a string or list")`. -/
def playTune (readLines : List Char → List (List Char)) (s : ℚ → ℤ → ℚ)
    (mult : List ℚ) (volume : ℚ) : TuneArg → Except PyError (List ℤ)
  | TuneArg.strArg p => generateTuneWaveform s mult volume (readLines p)
  | TuneArg.listArg ls => generateTuneWaveform s mult volume ls
  | TuneArg.otherArg => Except.error PyError.typeError

/-- A concrete sine stand-in for witnesses: the constant zero wave. -/
def sinZero : ℚ → ℤ → ℚ := fun _ _ => 0

/-- The tune line `"E4:0.5"`. -/
def lineE4 : List Char := ['E', '4', ':', '0', '.', '5']

/-- The tune line `"D4:0.5"`. -/
def lineD4 : List Char := ['D', '4', ':', '0', '.', '5']

/-- The tune line `"H"`, an invalid note letter. -/
def lineH : List Char := ['H']

/-- `true` exactly when resolution failed with an overall-shape failure
(as opposed to a letter, octave or accidental failure). -/
def isShapeFailure : Except NoteError Freq → Bool
  | Except.error (NoteError.shape _) => true
  | _ => false

theorem fadeIn_length : fadeIn.length = 800 := by
  unfold fadeIn
  rw [List.length_map, List.length_range]

theorem fadeOut_length : fadeOut.length = 800 := by
  unfold fadeOut
  rw [List.length_map, List.length_range]

theorem fadeStep_length (a : List ℚ) : (fadeStep a).length = a.length := by
  unfold fadeStep
  by_cases h : 800 < a.length
  · have h1 : (List.zipWith (· * ·) (a.take 800) fadeIn ++ a.drop 800).length
        = a.length := by
      simp [List.length_zipWith, fadeIn_length]
      omega
    simp only [if_pos h]
    simp [List.length_zipWith, fadeOut_length, h1]
    omega
  · simp only [if_neg h]

theorem fadeStep_short (a : List ℚ) (h : a.length ≤ 800) : fadeStep a = a := by
  unfold fadeStep
  rw [if_neg (by omega)]

theorem generateNoteWaveform_ok (s : ℚ → ℤ → ℚ) (mult : List ℚ) (volume : ℚ)
    (f : Freq) (duration : ℚ) (h : 1 ≤ pyTrunc (duration * 44100)) :
    ∃ w, generateNoteWaveform s mult volume f duration = Except.ok w ∧
      w.length = (pyTrunc (duration * 44100)).toNat := by
  unfold generateNoteWaveform
  rw [if_neg (by omega)]
  set n : ℕ := (pyTrunc (duration * 44100)).toNat with hn
  set t : List ℚ := (List.range n).map (fun j : ℕ => duration * (j : ℚ) / (n : ℚ))
    with ht
  set audio : List ℚ := t.map fun tv =>
    (0 + (mult.map fun m => s (f.base * tv * m) f.semis).sum) / (mult.length + 1)
    with haudio
  have hlen : audio.length = n := by
    rw [haudio, List.length_map, ht, List.length_map, List.length_range]
  have hne : audio.isEmpty = false := by
    rw [List.isEmpty_eq_false_iff_exists_mem]
    have : 0 < audio.length := by omega
    exact List.exists_mem_of_length_pos this
  rw [if_neg (by rw [hne]; exact Bool.false_ne_true)]
  refine ⟨_, rfl, ?_⟩
  rw [List.length_map, fadeStep_length, List.length_map, hlen]

theorem generateNoteWaveform_degenerate (s : ℚ → ℤ → ℚ) (mult : List ℚ)
    (volume : ℚ) (f : Freq) (duration : ℚ)
    (h : pyTrunc (duration * 44100) = 0) :
    generateNoteWaveform s mult volume f duration =
      Except.error PyError.maxOfEmpty := by
  unfold generateNoteWaveform
  rw [if_neg (by omega)]
  have : (pyTrunc (duration * 44100)).toNat = 0 := by omega
  rw [this]
  rfl

/-- Claim C2 counterexample: zero duration does not yield an empty
buffer; the normalization step raises on the empty array instead. -/
theorem C2_zero_duration_counterexample :
    generateNoteWaveform sinZero waveVariationMultipliers 0.3 ⟨440, 0⟩ 0 =
      Except.error PyError.maxOfEmpty ∧
    generateNoteWaveform sinZero waveVariationMultipliers 0.3 ⟨440, 0⟩ 0 ≠
      Except.ok [] := by
  have h : generateNoteWaveform sinZero waveVariationMultipliers 0.3 ⟨440, 0⟩ 0
      = Except.error PyError.maxOfEmpty := by
    apply generateNoteWaveform_degenerate
    norm_num [pyTrunc]
  exact ⟨h, by rw [h]; exact fun hc => Except.noConfusion hc⟩

/-- Claim C2 (amended): when `int(duration * 44100)` is at least one the
synthesized buffer has exactly that many samples; when the count is zero
(zero or degenerate duration) the synthesizer raises from `np.max` over
an empty array instead of returning an empty buffer. -/
theorem C2_waveform_length (s : ℚ → ℤ → ℚ) (mult : List ℚ) (volume : ℚ)
    (f : Freq) (duration : ℚ) :
    (1 ≤ pyTrunc (duration * 44100) →
      ∃ w, generateNoteWaveform s mult volume f duration = Except.ok w ∧
        w.length = (pyTrunc (duration * 44100)).toNat) ∧
    (pyTrunc (duration * 44100) = 0 →
      generateNoteWaveform s mult volume f duration =
        Except.error PyError.maxOfEmpty) :=
  ⟨generateNoteWaveform_ok s mult volume f duration,
   generateNoteWaveform_degenerate s mult volume f duration⟩

/-- Concrete instantiation of `C2_waveform_length` at durations `1/2`
and `0`. -/
theorem C2_waveform_length_witness :
    1 ≤ pyTrunc ((1 : ℚ) / 2 * 44100) ∧
    (∃ w, generateNoteWaveform sinZero waveVariationMultipliers 0.3 ⟨440, 0⟩
        ((1 : ℚ) / 2) = Except.ok w ∧
      w.length = (pyTrunc ((1 : ℚ) / 2 * 44100)).toNat) ∧
    pyTrunc ((0 : ℚ) * 44100) = 0 ∧
    generateNoteWaveform sinZero waveVariationMultipliers 0.3 ⟨440, 0⟩ 0 =
      Except.error PyError.maxOfEmpty := by
  have h1 : 1 ≤ pyTrunc ((1 : ℚ) / 2 * 44100) := by norm_num [pyTrunc]
  have h0 : pyTrunc ((0 : ℚ) * 44100) = 0 := by norm_num [pyTrunc]
  exact ⟨h1,
    (C2_waveform_length sinZero waveVariationMultipliers 0.3 ⟨440, 0⟩
      ((1 : ℚ) / 2)).1 h1, h0,
    (C2_waveform_length sinZero waveVariationMultipliers 0.3 ⟨440, 0⟩ 0).2 h0⟩

theorem tuneBuffersAux_false (s : ℚ → ℤ → ℚ) (mult : List ℚ) (volume : ℚ)
    (lines : List (List Char)) :
    tuneBuffersAux s mult volume false lines = Except.ok [] := by
  induction lines with
  | nil => rfl
  | cons line rest ih =>
    unfold tuneBuffersAux
    by_cases h : (pyStrip line).length = 0
    · rw [if_pos h]; exact ih
    · rw [if_neg h]
      simp only [Bool.false_eq_true, if_false]
      exact ih

theorem tuneBuffersAux_blank (s : ℚ → ℤ → ℚ) (mult : List ℚ) (volume : ℚ)
    (valid : Bool) (line : List Char) (rest : List (List Char))
    (h : (pyStrip line).length = 0) :
    tuneBuffersAux s mult volume valid (line :: rest) =
      tuneBuffersAux s mult volume valid rest := by
  conv_lhs => unfold tuneBuffersAux
  rw [if_pos h]

theorem tuneBuffersAux_invalid (s : ℚ → ℤ → ℚ) (mult : List ℚ) (volume : ℚ)
    (line : List Char) (rest : List (List Char)) (e : NoteError)
    (hb : (pyStrip line).length ≠ 0)
    (he : calcFrequency (parseLine (pyStrip line)).1 = Except.error e) :
    tuneBuffersAux s mult volume true (line :: rest) = Except.ok [] := by
  conv_lhs => unfold tuneBuffersAux
  rw [if_neg hb, if_pos rfl]
  simp only [he]
  exact tuneBuffersAux_false s mult volume rest

theorem tuneBuffersAux_valid (s : ℚ → ℤ → ℚ) (mult : List ℚ) (volume : ℚ)
    (line : List Char) (rest : List (List Char)) (f : Freq) (d : ℚ)
    (w : List ℤ)
    (hb : (pyStrip line).length ≠ 0)
    (hf : calcFrequency (parseLine (pyStrip line)).1 = Except.ok f)
    (hd : (parseLine (pyStrip line)).2 = PyFloatVal.finite d)
    (hw : generateNoteWaveform s mult volume f d = Except.ok w) :
    tuneBuffersAux s mult volume true (line :: rest) =
      (tuneBuffersAux s mult volume true rest).map (fun ws => w :: ws) := by
  conv_lhs => unfold tuneBuffersAux
  rw [if_neg hb, if_pos rfl]
  simp only [hf, hd, hw]
  cases tuneBuffersAux s mult volume true rest <;> rfl

/-- Claim C10: a tune in which no line yields a successfully resolved
note (each line blank or its token failing resolution) makes
`generate_tune_waveform` raise from `np.concatenate` over an empty list
instead of returning an empty buffer. -/
theorem C10_all_skipped_concat_error (s : ℚ → ℤ → ℚ) (mult : List ℚ)
    (volume : ℚ) (lines : List (List Char))
    (h : ∀ line ∈ lines, pyStrip line = [] ∨
      ∃ e, calcFrequency (parseLine (pyStrip line)).1 = Except.error e) :
    generateTuneWaveform s mult volume lines =
      Except.error PyError.concatEmpty := by
  have haux : tuneBuffersAux s mult volume true lines = Except.ok [] := by
    induction lines with
    | nil => rfl
    | cons line rest ih =>
      by_cases hb : (pyStrip line).length = 0
      · rw [tuneBuffersAux_blank s mult volume true line rest hb]
        exact ih fun l hl => h l (List.mem_cons_of_mem line hl)
      · rcases h line (List.mem_cons_self line rest) with hblank | ⟨e, he⟩
        · exact absurd (by rw [hblank]; rfl) hb
        · exact tuneBuffersAux_invalid s mult volume line rest e hb he
  unfold generateTuneWaveform
  rw [haux]

/-- Concrete instantiation of `C10_all_skipped_concat_error` on the
single-line tune `["x"]`. -/
theorem C10_all_skipped_concat_error_witness :
    (∀ line ∈ [['x']], pyStrip line = [] ∨
      ∃ e, calcFrequency (parseLine (pyStrip line)).1 = Except.error e) ∧
    generateTuneWaveform sinZero waveVariationMultipliers 0.3 [['x']] =
      Except.error PyError.concatEmpty := by
  have h : ∀ line ∈ [['x']], pyStrip line = [] ∨
      ∃ e, calcFrequency (parseLine (pyStrip line)).1 = Except.error e := by
    intro line hl
    rw [List.mem_singleton] at hl
    subst hl
    exact Or.inr ⟨NoteError.letter ['x'], rfl⟩
  exact ⟨h, C10_all_skipped_concat_error sinZero waveVariationMultipliers 0.3
    [['x']] h⟩

theorem pyFloat_05 : pyFloat ['0', '.', '5'] = some (PyFloatVal.finite (1 / 2)) := by
  have h : pyFloat ['0', '.', '5'] =
      some (PyFloatVal.finite (((0 : ℕ) : ℚ) + ((5 : ℕ) : ℚ) / 10 ^ (1 : ℕ))) := rfl
  rw [h]
  norm_num

theorem parseLine_lineE4 :
    parseLine lineE4 = (['E', '4'], PyFloatVal.finite (1 / 2)) := by
  have h : pySplitColon lineE4 = [['E', '4'], ['0', '.', '5']] := rfl
  unfold parseLine
  rw [h]
  show (['E', '4'], (pyFloat ['0', '.', '5']).getD (PyFloatVal.finite (1 / 2))) =
    (['E', '4'], PyFloatVal.finite (1 / 2))
  rw [pyFloat_05]
  rfl

theorem parseLine_lineD4 :
    parseLine lineD4 = (['D', '4'], PyFloatVal.finite (1 / 2)) := by
  have h : pySplitColon lineD4 = [['D', '4'], ['0', '.', '5']] := rfl
  unfold parseLine
  rw [h]
  show (['D', '4'], (pyFloat ['0', '.', '5']).getD (PyFloatVal.finite (1 / 2))) =
    (['D', '4'], PyFloatVal.finite (1 / 2))
  rw [pyFloat_05]
  rfl

theorem calcFrequency_E4 :
    calcFrequency ['E', '4'] = Except.ok ⟨20.60172 * 2 ^ 4, 0⟩ := by
  simp +decide [calcFrequency, setBaseFrequency, setOctave, setSemitone, pyInt,
    digitsVal, noteFrequencies, Except.map]

theorem calcFrequency_D4 :
    calcFrequency ['D', '4'] = Except.ok ⟨18.35405 * 2 ^ 4, 0⟩ := by
  simp +decide [calcFrequency, setBaseFrequency, setOctave, setSemitone, pyInt,
    digitsVal, noteFrequencies, Except.map]

theorem sampleCount_half : pyTrunc ((1 : ℚ) / 2 * 44100) = 22050 := by
  norm_num [pyTrunc]

/-- Claim C3 (code behavior at the failing input): in the tune
`["H4", "E4:0.5"]` the invalid first token clears `_valid_note`, which
`generate_tune_waveform` never resets, so the valid `E4` note is skipped
as well and concatenating zero buffers raises — processing of subsequent
notes does not continue unaffected.  On its own, `"E4:0.5"` synthesizes
a 22050-sample buffer. -/
theorem C3_invalid_note_poisons_rest :
    generateTuneWaveform sinZero waveVariationMultipliers 0.3
      [['H', '4'], lineE4] = Except.error PyError.concatEmpty ∧
    (generateTuneWaveform sinZero waveVariationMultipliers 0.3 [lineE4]).map
      List.length = Except.ok 22050 := by
  constructor
  · have haux : tuneBuffersAux sinZero waveVariationMultipliers 0.3 true
        [['H', '4'], lineE4] = Except.ok [] :=
      tuneBuffersAux_invalid sinZero waveVariationMultipliers 0.3 ['H', '4']
        [lineE4] (NoteError.letter ['H']) (by decide) rfl
    unfold generateTuneWaveform
    rw [haux]
  · obtain ⟨w, hw, hwlen⟩ := generateNoteWaveform_ok sinZero
      waveVariationMultipliers 0.3 ⟨20.60172 * 2 ^ 4, 0⟩ ((1 : ℚ) / 2)
      (by rw [sampleCount_half]; omega)
    have hf : calcFrequency (parseLine (pyStrip lineE4)).1 =
        Except.ok ⟨20.60172 * 2 ^ 4, 0⟩ := by
      have h1 : (parseLine (pyStrip lineE4)).1 = ['E', '4'] := by
        rw [show pyStrip lineE4 = lineE4 from rfl, parseLine_lineE4]
      rw [h1, calcFrequency_E4]
    have hd : (parseLine (pyStrip lineE4)).2 = PyFloatVal.finite (1 / 2) := by
      rw [show pyStrip lineE4 = lineE4 from rfl, parseLine_lineE4]
    have haux : tuneBuffersAux sinZero waveVariationMultipliers 0.3 true
        [lineE4] = Except.ok [w] := by
      rw [tuneBuffersAux_valid sinZero waveVariationMultipliers 0.3
        lineE4 [] ⟨20.60172 * 2 ^ 4, 0⟩ (1 / 2) w (by decide) hf hd hw]
      rfl
    unfold generateTuneWaveform
    rw [haux]
    show (Except.ok ([w].flatten)).map List.length =
      (Except.ok 22050 : Except PyError ℕ)
    simp only [List.flatten, List.flatten_nil, List.append_nil, Except.map]
    rw [hwlen, sampleCount_half]
    rfl

/-- Claim C4 (code behavior): the all-valid tune `["E4:0.5", "D4:0.5"]`
produces exactly the concatenation `w1 ++ w2` of the two per-note
buffers, with length the sum of their lengths; but in
`["E4:0.5", "H", "D4:0.5"]` the invalid middle token clears the
never-reset `_valid_note` flag, so the output is `w1` alone rather than
the concatenation of the two valid notes' buffers. -/
theorem C4_tune_concatenation (s : ℚ → ℤ → ℚ) (mult : List ℚ) (volume : ℚ) :
    ∃ w1 w2,
      generateNoteWaveform s mult volume ⟨20.60172 * 2 ^ 4, 0⟩ (1 / 2) =
        Except.ok w1 ∧
      generateNoteWaveform s mult volume ⟨18.35405 * 2 ^ 4, 0⟩ (1 / 2) =
        Except.ok w2 ∧
      w1.length = 22050 ∧ w2.length = 22050 ∧
      generateTuneWaveform s mult volume [lineE4, lineD4] =
        Except.ok (w1 ++ w2) ∧
      generateTuneWaveform s mult volume [lineE4, lineH, lineD4] =
        Except.ok w1 := by
  obtain ⟨w1, hw1, hw1len⟩ := generateNoteWaveform_ok s mult volume
    ⟨20.60172 * 2 ^ 4, 0⟩ ((1 : ℚ) / 2) (by rw [sampleCount_half]; omega)
  obtain ⟨w2, hw2, hw2len⟩ := generateNoteWaveform_ok s mult volume
    ⟨18.35405 * 2 ^ 4, 0⟩ ((1 : ℚ) / 2) (by rw [sampleCount_half]; omega)
  have hfE : calcFrequency (parseLine (pyStrip lineE4)).1 =
      Except.ok ⟨20.60172 * 2 ^ 4, 0⟩ := by
    rw [show pyStrip lineE4 = lineE4 from rfl, parseLine_lineE4]
    exact calcFrequency_E4
  have hdE : (parseLine (pyStrip lineE4)).2 = PyFloatVal.finite (1 / 2) := by
    rw [show pyStrip lineE4 = lineE4 from rfl, parseLine_lineE4]
  have hfD : calcFrequency (parseLine (pyStrip lineD4)).1 =
      Except.ok ⟨18.35405 * 2 ^ 4, 0⟩ := by
    rw [show pyStrip lineD4 = lineD4 from rfl, parseLine_lineD4]
    exact calcFrequency_D4
  have hdD : (parseLine (pyStrip lineD4)).2 = PyFloatVal.finite (1 / 2) := by
    rw [show pyStrip lineD4 = lineD4 from rfl, parseLine_lineD4]
  refine ⟨w1, w2, hw1, hw2, by rw [hw1len, sampleCount_half]; rfl,
    by rw [hw2len, sampleCount_half]; rfl, ?_, ?_⟩
  · have hauxD : tuneBuffersAux s mult volume true [lineD4] =
        Except.ok [w2] := by
      rw [tuneBuffersAux_valid s mult volume lineD4 [] ⟨18.35405 * 2 ^ 4, 0⟩
        (1 / 2) w2 (by decide) hfD hdD hw2]
      rfl
    have haux : tuneBuffersAux s mult volume true [lineE4, lineD4] =
        Except.ok [w1, w2] := by
      rw [tuneBuffersAux_valid s mult volume lineE4 [lineD4]
        ⟨20.60172 * 2 ^ 4, 0⟩ (1 / 2) w1 (by decide) hfE hdE hw1,
        hauxD]
      rfl
    unfold generateTuneWaveform
    rw [haux]
    show Except.ok ([w1, w2].flatten) = Except.ok (w1 ++ w2)
    simp [List.flatten]
  · have hauxH : tuneBuffersAux s mult volume true [lineH, lineD4] =
        Except.ok [] :=
      tuneBuffersAux_invalid s mult volume lineH [lineD4]
        (NoteError.letter ['H']) (by decide) rfl
    have haux : tuneBuffersAux s mult volume true [lineE4, lineH, lineD4] =
        Except.ok [w1] := by
      rw [tuneBuffersAux_valid s mult volume lineE4 [lineH, lineD4]
        ⟨20.60172 * 2 ^ 4, 0⟩ (1 / 2) w1 (by decide) hfE hdE hw1,
        hauxH]
      rfl
    unfold generateTuneWaveform
    rw [haux]
    show Except.ok ([w1].flatten) = Except.ok w1
    simp [List.flatten]

/-- Claim C7 counterexample: inside a tune the sequencer treats
`"pause"` as an invalid note: resolution fails at the letter stage,
producing an invalid-note diagnostic for `'p'`. -/
theorem C7_pause_counterexample :
    calcFrequency ['p', 'a', 'u', 's', 'e'] =
      Except.error (NoteError.letter ['p']) := rfl

/-- Claim C7 (amended): a `"pause"` line contributes no samples to the
tune buffer, but the sequencer handles it through the invalid-note path
(a letter failure), after which the never-reset validity flag skips the
rest of the tune; the wait-report-sleep pause contract (no buffer
produced or dispatched) holds only in the single-note playback path
`play_note`. -/
theorem C7_pause_handling (s : ℚ → ℤ → ℚ) (mult : List ℚ) (volume : ℚ)
    (duration : ℚ) (rest : List (List Char)) :
    playNote s mult volume ['p', 'a', 'u', 's', 'e'] duration =
      Except.ok (PlayAction.pausedFor duration) ∧
    tuneBuffersAux s mult volume true (['p', 'a', 'u', 's', 'e'] :: rest) =
      Except.ok [] := by
  constructor
  · rfl
  · exact tuneBuffersAux_invalid s mult volume ['p', 'a', 'u', 's', 'e'] rest
      (NoteError.letter ['p']) (by decide) rfl

/-- Claim C8 counterexample: the length-4 token `"Z123"` is reported as
a letter failure, not as an overall-shape failure. -/
theorem C8_wrong_length_counterexample :
    calcFrequency ['Z', '1', '2', '3'] = Except.error (NoteError.letter ['Z']) ∧
    isShapeFailure (calcFrequency ['Z', '1', '2', '3']) = false := by
  have h : calcFrequency ['Z', '1', '2', '3'] =
      Except.error (NoteError.letter ['Z']) := rfl
  exact ⟨h, by rw [h]; rfl⟩

/-- Claim C8 (amended): a token whose length is not 1, 2 or 3 yields an
overall-shape failure reported with the whole offending token when its
first character uppercases to a table letter; when the letter lookup
fails, the earlier letter stage reports a letter failure instead. -/
theorem C8_shape_failure (note : List Char)
    (h1 : note.length ≠ 1) (h2 : note.length ≠ 2) (h3 : note.length ≠ 3) :
    (∀ b, setBaseFrequency note = Except.ok b →
      calcFrequency note = Except.error (NoteError.shape note)) ∧
    (∀ e, setBaseFrequency note = Except.error e →
      calcFrequency note = Except.error e) := by
  constructor <;> intro x hx <;> simp [calcFrequency, hx, h1, h2, h3]

/-- Concrete instantiation of `C8_shape_failure` at the token `"A123"`. -/
theorem C8_shape_failure_witness :
    (List.length ['A', '1', '2', '3'] ≠ 1 ∧
      List.length ['A', '1', '2', '3'] ≠ 2 ∧
      List.length ['A', '1', '2', '3'] ≠ 3) ∧
    setBaseFrequency ['A', '1', '2', '3'] = Except.ok 27.50000 ∧
    calcFrequency ['A', '1', '2', '3'] =
      Except.error (NoteError.shape ['A', '1', '2', '3']) := by
  refine ⟨⟨by decide, by decide, by decide⟩, rfl, ?_⟩
  exact (C8_shape_failure ['A', '1', '2', '3'] (by decide) (by decide)
    (by decide)).1 27.50000 rfl

/-- Claim C9: volume strictly outside `[0, 1]` fails construction with
the distinguishable `ValueError` message while `0` and `1` succeed, and
`play_tune` on an argument that is neither a string nor a list raises a
distinguishable `TypeError` immediately. -/
theorem C9_construction_and_call_shape :
    playerInit (-(1 / 10)) false =
      Except.error "Volume must be a float between 0 and 1" ∧
    playerInit (3 / 2) false =
      Except.error "Volume must be a float between 0 and 1" ∧
    playerInit 0 false = Except.ok ⟨0, false⟩ ∧
    playerInit 1 false = Except.ok ⟨1, false⟩ ∧
    (∀ v m, (v < 0 ∨ 1 < v) →
      playerInit v m = Except.error "Volume must be a float between 0 and 1") ∧
    (∀ v m, 0 ≤ v → v ≤ 1 → playerInit v m = Except.ok ⟨v, m⟩) ∧
    (∀ rl s mult volume, playTune rl s mult volume TuneArg.otherArg =
      Except.error PyError.typeError) := by
  refine ⟨by norm_num [playerInit], by norm_num [playerInit],
    by norm_num [playerInit], by norm_num [playerInit], ?_, ?_, ?_⟩
  · intro v m hv
    unfold playerInit
    rw [if_pos hv]
  · intro v m h0 h1
    unfold playerInit
    rw [if_neg (by push_neg; exact ⟨h0, h1⟩)]
  · intro rl s mult volume
    rfl

/-- Concrete instantiation of `C9_construction_and_call_shape` at the
volumes `3/2` (rejected) and `1/2` (accepted). -/
theorem C9_construction_and_call_shape_witness :
    ((3 : ℚ) / 2 < 0 ∨ 1 < (3 : ℚ) / 2) ∧
    playerInit (3 / 2) true =
      Except.error "Volume must be a float between 0 and 1" ∧
    (0 : ℚ) ≤ 1 / 2 ∧ (1 : ℚ) / 2 ≤ 1 ∧
    playerInit (1 / 2) true = Except.ok ⟨1 / 2, true⟩ := by
  have h1 : (3 : ℚ) / 2 < 0 ∨ 1 < (3 : ℚ) / 2 := by norm_num
  exact ⟨h1, C9_construction_and_call_shape.2.2.2.2.1 (3 / 2) true h1,
    by norm_num, by norm_num,
    C9_construction_and_call_shape.2.2.2.2.2.1 (1 / 2) true (by norm_num)
      (by norm_num)⟩

theorem pySplitColon_no_colon (l : List Char) (h : ':' ∉ l) :
    pySplitColon l = [l] := by
  induction l with
  | nil => rfl
  | cons c rest ih =>
    have hcne : c ≠ ':' := by
      intro hceq
      apply h
      rw [← hceq]
      exact List.mem_cons_self c rest
    have hrest : ':' ∉ rest := fun hm => h (List.mem_cons_of_mem c hm)
    conv_lhs => unfold pySplitColon
    rw [if_neg hcne, ih hrest]

theorem pySplitColon_append (a b : List Char) (ha : ':' ∉ a) :
    pySplitColon (a ++ ':' :: b) = a :: pySplitColon b := by
  induction a with
  | nil =>
    show pySplitColon (':' :: b) = [] :: pySplitColon b
    conv_lhs => unfold pySplitColon
    rw [if_pos rfl]
  | cons c rest ih =>
    have hcne : c ≠ ':' := by
      intro hceq
      apply ha
      rw [← hceq]
      exact List.mem_cons_self c rest
    have hrest : ':' ∉ rest := fun hm => ha (List.mem_cons_of_mem c hm)
    show pySplitColon (c :: (rest ++ ':' :: b)) = (c :: rest) :: pySplitColon b
    conv_lhs => unfold pySplitColon
    rw [if_neg hcne, ih hrest]

theorem parseLine_no_colon (l : List Char) (h : ':' ∉ l) :
    parseLine l = (l, PyFloatVal.finite (1 / 2)) := by
  unfold parseLine
  rw [pySplitColon_no_colon l h]

theorem parseLine_one_colon (a d : List Char) (ha : ':' ∉ a) (hd : ':' ∉ d) :
    parseLine (a ++ ':' :: d) =
      (a, (pyFloat d).getD (PyFloatVal.finite (1 / 2))) := by
  unfold parseLine
  rw [pySplitColon_append a d ha, pySplitColon_no_colon d hd]

theorem parseLine_two_colons (a b c : List Char)
    (ha : ':' ∉ a) (hb : ':' ∉ b) (hc : ':' ∉ c) :
    parseLine (a ++ ':' :: (b ++ ':' :: c)) =
      (a ++ ':' :: (b ++ ':' :: c), PyFloatVal.finite (1 / 2)) := by
  unfold parseLine
  rw [pySplitColon_append a (b ++ ':' :: c) ha, pySplitColon_append b c hb,
    pySplitColon_no_colon c hc]

theorem pyFloat_space1 : pyFloat [' ', '1'] = some (PyFloatVal.finite 1) := by
  have h : pyFloat [' ', '1'] =
      some (PyFloatVal.finite (((1 : ℕ) : ℚ) + ((0 : ℕ) : ℚ) / 10 ^ (0 : ℕ))) :=
    rfl
  rw [h]
  norm_num

theorem pyFloat_1e1 : pyFloat ['1', 'e', '1'] = some (PyFloatVal.finite 10) := by
  have h : pyFloat ['1', 'e', '1'] =
      some (PyFloatVal.finite ((((1 : ℕ) : ℚ) + ((0 : ℕ) : ℚ) / 10 ^ (0 : ℕ)) *
        10 ^ (((1 : ℕ) : ℤ)))) := rfl
  rw [h]
  norm_num

theorem pyFloat_underscore :
    pyFloat ['1', '_', '0'] = some (PyFloatVal.finite 10) := by
  have h : pyFloat ['1', '_', '0'] =
      some (PyFloatVal.finite (((10 : ℕ) : ℚ) + ((0 : ℕ) : ℚ) / 10 ^ (0 : ℕ))) :=
    rfl
  rw [h]
  norm_num

theorem pyFloat_inf :
    pyFloat ['i', 'n', 'f'] = some (PyFloatVal.infinite false) := rfl

theorem pyFloat_nan : pyFloat ['n', 'a', 'n'] = some PyFloatVal.nanVal := rfl

/-- Claim C6 counterexample: the line `"E4:1:2"` is not split on its
first colon; the failed two-name unpacking of `split(":")` makes the
whole line the token (with default duration), not `"E4"`. -/
theorem C6_first_colon_counterexample :
    parseLine ['E', '4', ':', '1', ':', '2'] =
      (['E', '4', ':', '1', ':', '2'], PyFloatVal.finite (1 / 2)) ∧
    (parseLine ['E', '4', ':', '1', ':', '2']).1 ≠ ['E', '4'] := by
  have h : parseLine ['E', '4', ':', '1', ':', '2'] =
      (['E', '4', ':', '1', ':', '2'], PyFloatVal.finite (1 / 2)) := rfl
  exact ⟨h, by rw [h]; decide⟩

/-- Claim C6 (amended): blank lines are skipped; a non-blank line is
split into token and duration text only when it contains exactly one
colon; with no colon, or with two or more colons, the entire line is the
token and the duration defaults; the duration is the Python
`float(text)` value of the duration text and defaults to `0.5` whenever
that text is absent or fails to parse as a float. -/
theorem C6_line_splitting (s : ℚ → ℤ → ℚ) (mult : List ℚ) (volume : ℚ) :
    (∀ valid line rest, pyStrip line = [] →
      tuneBuffersAux s mult volume valid (line :: rest) =
        tuneBuffersAux s mult volume valid rest) ∧
    (∀ a d, ':' ∉ a → ':' ∉ d →
      parseLine (a ++ ':' :: d) =
        (a, (pyFloat d).getD (PyFloatVal.finite (1 / 2)))) ∧
    (∀ a d, ':' ∉ a → ':' ∉ d → pyFloat d = none →
      parseLine (a ++ ':' :: d) = (a, PyFloatVal.finite (1 / 2))) ∧
    (∀ l, ':' ∉ l → parseLine l = (l, PyFloatVal.finite (1 / 2))) ∧
    (∀ a b c, ':' ∉ a → ':' ∉ b → ':' ∉ c →
      parseLine (a ++ ':' :: (b ++ ':' :: c)) =
        (a ++ ':' :: (b ++ ':' :: c), PyFloatVal.finite (1 / 2))) := by
  refine ⟨?_, ?_, ?_, ?_, ?_⟩
  · intro valid line rest h
    exact tuneBuffersAux_blank s mult volume valid line rest (by rw [h]; rfl)
  · intro a d ha hd
    exact parseLine_one_colon a d ha hd
  · intro a d ha hd hnone
    rw [parseLine_one_colon a d ha hd, hnone]
    rfl
  · intro l h
    exact parseLine_no_colon l h
  · intro a b c ha hb hc
    exact parseLine_two_colons a b c ha hb hc

/-- Concrete instantiation of `C6_line_splitting`: the blank line `" "`,
the line `"E4:2"`, the unparsable-duration line `"E4:x"`, the colon-free
line `"E4"`, the double-colon line `"E4:1:2"`, and the `float()` forms
reachable in duration text — whitespace-padded `"E4: 1"` (duration 1,
not the default), exponent `"1e1"`, underscore `"1_0"`, and the
successfully parsed non-finite words `"inf"` and `"nan"`. -/
theorem C6_line_splitting_witness :
    pyStrip [' '] = [] ∧
    tuneBuffersAux sinZero waveVariationMultipliers 0.3 true ([' '] :: []) =
      tuneBuffersAux sinZero waveVariationMultipliers 0.3 true [] ∧
    parseLine (['E', '4'] ++ ':' :: ['2']) =
      (['E', '4'], (pyFloat ['2']).getD (PyFloatVal.finite (1 / 2))) ∧
    pyFloat ['x'] = none ∧
    parseLine (['E', '4'] ++ ':' :: ['x']) =
      (['E', '4'], PyFloatVal.finite (1 / 2)) ∧
    parseLine ['E', '4'] = (['E', '4'], PyFloatVal.finite (1 / 2)) ∧
    parseLine (['E', '4'] ++ ':' :: (['1'] ++ ':' :: ['2'])) =
      (['E', '4'] ++ ':' :: (['1'] ++ ':' :: ['2']), PyFloatVal.finite (1 / 2)) ∧
    pyFloat [' ', '1'] = some (PyFloatVal.finite 1) ∧
    parseLine (['E', '4'] ++ ':' :: [' ', '1']) =
      (['E', '4'], PyFloatVal.finite 1) ∧
    pyFloat ['1', 'e', '1'] = some (PyFloatVal.finite 10) ∧
    pyFloat ['1', '_', '0'] = some (PyFloatVal.finite 10) ∧
    pyFloat ['i', 'n', 'f'] = some (PyFloatVal.infinite false) ∧
    pyFloat ['n', 'a', 'n'] = some PyFloatVal.nanVal := by
  have hC := C6_line_splitting sinZero waveVariationMultipliers 0.3
  refine ⟨rfl, hC.1 true [' '] [] rfl,
    hC.2.1 ['E', '4'] ['2'] (by decide) (by decide),
    rfl,
    hC.2.2.1 ['E', '4'] ['x'] (by decide) (by decide) rfl,
    hC.2.2.2.1 ['E', '4'] (by decide),
    hC.2.2.2.2 ['E', '4'] ['1'] ['2'] (by decide) (by decide) (by decide),
    pyFloat_space1, ?_, pyFloat_1e1, pyFloat_underscore, pyFloat_inf,
    pyFloat_nan⟩
  rw [hC.2.1 ['E', '4'] [' ', '1'] (by decide) (by decide), pyFloat_space1]
  rfl

theorem fadeIn_getElem? (i : ℕ) (h : i < 800) :
    fadeIn[i]? = some ((i : ℚ) / 800) := by
  unfold fadeIn
  rw [List.getElem?_map, List.getElem?_range h]
  rfl

theorem fadeOut_getElem? (i : ℕ) (h : i < 800) :
    fadeOut[i]? = some (1 - (i : ℚ) / 800) := by
  unfold fadeOut
  rw [List.getElem?_map, List.getElem?_range h]
  rfl

theorem fadeIn_pairwise : fadeIn.Pairwise (· < ·) := by
  unfold fadeIn
  refine List.Pairwise.map _ (fun a b hab => ?_) (List.pairwise_lt_range 800)
  have hc : (a : ℚ) < b := Nat.cast_lt.mpr hab
  rw [div_lt_div_iff₀ (by norm_num) (by norm_num)]
  exact mul_lt_mul_of_pos_right hc (by norm_num)

theorem fadeOut_pairwise : fadeOut.Pairwise (· > ·) := by
  unfold fadeOut
  refine List.Pairwise.map _ (fun a b hab => ?_) (List.pairwise_lt_range 800)
  have hc : (a : ℚ) < b := Nat.cast_lt.mpr hab
  have hd : (a : ℚ) / 800 < (b : ℚ) / 800 := by
    rw [div_lt_div_iff₀ (by norm_num) (by norm_num)]
    exact mul_lt_mul_of_pos_right hc (by norm_num)
  exact sub_lt_sub_left hd 1

theorem fadeIn_bounds : ∀ x ∈ fadeIn, 0 ≤ x ∧ x < 1 := by
  intro x hx
  unfold fadeIn at hx
  obtain ⟨k, hk, rfl⟩ := List.mem_map.mp hx
  rw [List.mem_range] at hk
  refine ⟨div_nonneg (Nat.cast_nonneg k) (by norm_num), ?_⟩
  rw [div_lt_one (by norm_num)]
  exact_mod_cast hk

theorem fadeOut_bounds : ∀ x ∈ fadeOut, 0 < x ∧ x ≤ 1 := by
  intro x hx
  unfold fadeOut at hx
  obtain ⟨k, hk, rfl⟩ := List.mem_map.mp hx
  rw [List.mem_range] at hk
  constructor
  · rw [sub_pos, div_lt_one (by norm_num)]
    exact_mod_cast hk
  · exact sub_le_self 1 (div_nonneg (Nat.cast_nonneg k) (by norm_num))

theorem fadeStep_firstHalf_getElem? (audio : List ℚ) (h : 800 < audio.length)
    (i : ℕ) :
    (List.zipWith (· * ·) (audio.take 800) fadeIn ++ audio.drop 800)[i]? =
      (audio[i]?).map fun x => x * (if i < 800 then (i : ℚ) / 800 else 1) := by
  have hzl : (List.zipWith (· * ·) (audio.take 800) fadeIn).length = 800 := by
    rw [List.length_zipWith, List.length_take, fadeIn_length]
    omega
  by_cases hi : i < 800
  · rw [List.getElem?_append_left (by rw [hzl]; exact hi)]
    rw [List.getElem?_zipWith', List.getElem?_take, if_pos hi,
      fadeIn_getElem? i hi,
      List.getElem?_eq_getElem (show i < audio.length by omega)]
    simp [hi]
  · rw [List.getElem?_append_right (by rw [hzl]; omega), hzl,
      List.getElem?_drop]
    rw [show 800 + (i - 800) = i by omega]
    cases haud : audio[i]? <;> simp [hi]

theorem fadeStep_getElem? (audio : List ℚ) (h : 800 < audio.length) (i : ℕ) :
    (fadeStep audio)[i]? = (audio[i]?).map fun x =>
      x * (if i < 800 then (i : ℚ) / 800 else 1) *
      (if audio.length - 800 ≤ i then
        1 - ((i - (audio.length - 800) : ℕ) : ℚ) / 800 else 1) := by
  have hAget := fadeStep_firstHalf_getElem? audio h
  unfold fadeStep
  rw [if_pos h]
  set A := List.zipWith (· * ·) (audio.take 800) fadeIn ++ audio.drop 800
    with hA
  have hAlen : A.length = audio.length := by
    rw [hA, List.length_append, List.length_zipWith, List.length_take,
      fadeIn_length, List.length_drop]
    omega
  show (A.take (A.length - 800) ++
      List.zipWith (· * ·) (A.drop (A.length - 800)) fadeOut)[i]? =
    (audio[i]?).map fun x =>
      x * (if i < 800 then (i : ℚ) / 800 else 1) *
      (if audio.length - 800 ≤ i then
        1 - ((i - (audio.length - 800) : ℕ) : ℚ) / 800 else 1)
  rw [hAlen]
  set n := audio.length with hn
  have htl : (A.take (n - 800)).length = n - 800 := by
    rw [List.length_take, hAlen]
    omega
  by_cases hi : i < n - 800
  · rw [List.getElem?_append_left (by rw [htl]; exact hi)]
    rw [List.getElem?_take, if_pos hi, hAget i]
    have hnot : ¬ (n - 800 ≤ i) := by omega
    cases haud : audio[i]? <;> simp [hnot]
  · rw [List.getElem?_append_right (by rw [htl]; omega), htl,
      List.getElem?_zipWith', List.getElem?_drop]
    rw [show n - 800 + (i - (n - 800)) = i by omega, hAget i]
    by_cases hin : i < n
    · have hj : i - (n - 800) < 800 := by omega
      rw [fadeOut_getElem? _ hj,
        List.getElem?_eq_getElem (show i < audio.length from hin)]
      simp [show n - 800 ≤ i by omega]
    · rw [List.getElem?_eq_none (show audio.length ≤ i by omega)]
      simp

/-- Claim C5: the fade-in ramp is strictly increasing from `0` toward
`1` and the fade-out ramp strictly decreasing from `1` toward `0`; a
buffer strictly longer than 800 samples has its first 800 samples
multiplied by the fade-in ramp and its last 800 samples by the fade-out
ramp (sample `i` of the faded buffer is sample `i` of the input times
the applicable ramp values); a buffer shorter than 800 samples is left
unmodified by the fade step. -/
theorem C5_fade_envelope :
    fadeIn.Pairwise (· < ·) ∧ fadeIn[0]? = some 0 ∧
    (∀ x ∈ fadeIn, 0 ≤ x ∧ x < 1) ∧
    fadeOut.Pairwise (· > ·) ∧ fadeOut[0]? = some 1 ∧
    (∀ x ∈ fadeOut, 0 < x ∧ x ≤ 1) ∧
    (∀ audio : List ℚ, 800 < audio.length → ∀ i : ℕ,
      (fadeStep audio)[i]? = (audio[i]?).map fun x =>
        x * (if i < 800 then (i : ℚ) / 800 else 1) *
        (if audio.length - 800 ≤ i then
          1 - ((i - (audio.length - 800) : ℕ) : ℚ) / 800 else 1)) ∧
    (∀ audio : List ℚ, audio.length < 800 → fadeStep audio = audio) := by
  refine ⟨fadeIn_pairwise, ?_, fadeIn_bounds, fadeOut_pairwise, ?_,
    fadeOut_bounds, fadeStep_getElem?, fun audio h => fadeStep_short audio (by omega)⟩
  · rw [fadeIn_getElem? 0 (by norm_num)]
    norm_num
  · rw [fadeOut_getElem? 0 (by norm_num)]
    norm_num

/-- Concrete instantiation of `C5_fade_envelope`: a constant buffer of
801 ones is faded (sample 0 becomes `1 * 0/800 * 1 = 0`), membership of
`400/800` in the fade-in ramp, and a 3-sample buffer is unmodified. -/
theorem C5_fade_envelope_witness :
    (0 : ℚ) / 800 ∈ fadeIn ∧
    (0 ≤ (0 : ℚ) / 800 ∧ (0 : ℚ) / 800 < 1) ∧
    800 < (List.replicate 801 (1 : ℚ)).length ∧
    (fadeStep (List.replicate 801 (1 : ℚ)))[0]? =
      ((List.replicate 801 (1 : ℚ))[0]?).map (fun x =>
        x * (if 0 < 800 then ((0 : ℕ) : ℚ) / 800 else 1) *
        (if (List.replicate 801 (1 : ℚ)).length - 800 ≤ 0 then
          1 - (((0 - ((List.replicate 801 (1 : ℚ)).length - 800) : ℕ) : ℚ)) / 800
        else 1)) ∧
    (List.replicate 3 (1 : ℚ)).length < 800 ∧
    fadeStep (List.replicate 3 (1 : ℚ)) = List.replicate 3 (1 : ℚ) := by
  have hmem : (0 : ℚ) / 800 ∈ fadeIn := by
    unfold fadeIn
    exact List.mem_map.mpr ⟨0, List.mem_range.mpr (by norm_num), rfl⟩
  have hlong : 800 < (List.replicate 801 (1 : ℚ)).length := by
    rw [List.length_replicate]
    norm_num
  have hshort : (List.replicate 3 (1 : ℚ)).length < 800 := by
    rw [List.length_replicate]
    norm_num
  exact ⟨hmem, C5_fade_envelope.2.2.1 _ hmem, hlong,
    C5_fade_envelope.2.2.2.2.2.2.1 (List.replicate 801 (1 : ℚ)) hlong 0,
    hshort, C5_fade_envelope.2.2.2.2.2.2.2 (List.replicate 3 (1 : ℚ)) hshort⟩

end MusicalBeeps
